import Mathlib

set_option linter.unusedVariables false

/-!
Shallow embedding of the geoserver-client-go repository (package geoserver).

The repository is a REST client for the Geoserver administrative API.  The
embedding models:

  - Go maps of type map[string]string as an optional association list
    (the nil map is a first-class value in Go: reads and iteration treat
    it as empty, but assigning into it panics);
  - Go pointers as Option values where the source may pass nil;
  - Go runtime panics as an explicit GoPanic error in an Except result;
  - one HTTP exchange as an inductive value: request construction failure,
    transport failure from httpClient.Do, or a response with a status code
    and (for list operations) a body-read outcome;
  - reading and JSON-unmarshalling a response body as a BodyRead value:
    a read error, an unmarshal error, or the successfully decoded wire value.

Go float64 fields (bounding-box coordinates) carry no arithmetic anywhere in
the embedded code: they are only copied between structures, so they are
modelled as Int, which has decidable equality.

Go map iteration order is unspecified; mapToEntries is modelled as iterating
in the order of the association list, which is sufficient for every statement
below (none depends on a particular order).
-/

namespace Geoserver

/-- A Go runtime panic reachable in the embedded code. -/
inductive GoPanic where
  | nilMapAssign
  | nilDeref
deriving Repr, DecidableEq

/-- Go map[string]string: none is the nil map, some l an association list
with the usual map semantics (goAssocSet replaces an existing key). -/
abbrev GoStrMap := Option (List (String × String))

/-- Assignment m[k] = v on a non-nil Go map: replace the binding of k if
present, otherwise add it. -/
def goAssocSet (l : List (String × String)) (k v : String) : List (String × String) :=
  if l.any (fun p => p.1 == k) then
    l.map (fun p => if p.1 == k then (k, v) else p)
  else
    l ++ [(k, v)]

/-- Assignment m[k] = v on a Go map value: assigning into the nil map is a
runtime panic. -/
def goMapSet (m : GoStrMap) (k v : String) : Except GoPanic GoStrMap :=
  match m with
  | none => Except.error GoPanic.nilMapAssign
  | some l => Except.ok (some (goAssocSet l k v))

/-- Lookup in a Go map value; the nil map reads as empty. -/
def goMapGet (m : GoStrMap) (k : String) : Option String :=
  (m.getD []).lookup k

/-!  Domain and wire types for workspaces (src/unnamed/part_003). -/

/-- Workspace is the client standard representation of a Geoserver workspace. -/
structure Workspace where
  Name : String
  Href : String
deriving Repr, DecidableEq

/-- CreateWorkspaceRequest is the information required in order to create a workspace. -/
structure CreateWorkspaceRequest where
  Workspace : String
deriving Repr, DecidableEq

/-- GetWorkspacesResponse is the response from a get workspaces request;
the Go field is a slice of pointers, modelled as a list of values. -/
structure GetWorkspacesResponse where
  Workspaces : List Workspace
deriving Repr, DecidableEq

/-- newEmptyGetWorkspacesResponse creates a GetWorkspacesResponse with all
fields defaulted to empty. -/
def newEmptyGetWorkspacesResponse : GetWorkspacesResponse :=
  { Workspaces := [] }

/-- restWorkspace represents a Geoserver workspace on the wire. -/
structure restWorkspace where
  Name : String
  Href : String
deriving Repr, DecidableEq

/-- restWorkspaces is the wire collection of workspaces; the slice of
pointers is modelled as an optional list of optional values (the slice
itself and each element may be nil). -/
structure restWorkspaces where
  Workspace : Option (List (Option restWorkspace))
deriving Repr, DecidableEq

/-- getWorkspacesRestResponse is the wire shape of the workspace list
response; the Workspaces field is a pointer in the source. -/
structure getWorkspacesRestResponse where
  Workspaces : Option restWorkspaces
deriving Repr, DecidableEq

/-- createWorkspaceRestRequest is a REST request to create a workspace;
the Workspace field is a pointer in the source, always set by its only
constructor, modelled as a value. -/
structure createWorkspaceRestRequest where
  Workspace : restWorkspace
deriving Repr, DecidableEq

/-- newCreateWorkspaceRestRequest builds the wire request from the domain
request; only the name is populated (the Href field stays at its Go zero
value, the empty string). -/
def newCreateWorkspaceRestRequest (request : CreateWorkspaceRequest) : createWorkspaceRestRequest :=
  { Workspace := { Name := request.Workspace, Href := "" } }

/-- restWorkspaceToWorkspace converts a wire workspace pointer into a domain
Workspace; a nil pointer yields the zero-valued Workspace, as in the source
nil check. -/
def restWorkspaceToWorkspace : Option restWorkspace → Workspace
  | some rw => { Name := rw.Name, Href := rw.Href }
  | none => { Name := "", Href := "" }

/-- getWorkspacesRestResponseToGetWorkspacesResponse converts the wire list
response to the domain response; the source dereferences response.Workspaces
unconditionally (a nil pointer there would panic) and nil-checks only the
inner slice. -/
def getWorkspacesRestResponseToGetWorkspacesResponse (response : getWorkspacesRestResponse) :
    Except GoPanic GetWorkspacesResponse :=
  match response.Workspaces with
  | none => Except.error GoPanic.nilDeref
  | some rws =>
    match rws.Workspace with
    | none => Except.ok { Workspaces := [] }
    | some l => Except.ok { Workspaces := l.map restWorkspaceToWorkspace }

/-- newEmptyGetWorkspacesRestResponse creates a wire workspace list response
with all pointers initialised, used as the unmarshal target. -/
def newEmptyGetWorkspacesRestResponse : getWorkspacesRestResponse :=
  { Workspaces := some { Workspace := some [] } }

/-!  Domain and wire types for datastores (src/geoserver/datastore.go). -/

/-- CreateDatastoreRequest holds the properties required to create a
datastore.  The ConnectionDetails field is an interface whose single
capability is Entries, producing a map[string]string; it is modelled by
that resulting map. -/
structure CreateDatastoreRequest where
  Name : String
  Description : String
  «Type» : String
  Workspace : String
  ConnectionDetails : GoStrMap
deriving Repr, DecidableEq

/-- Datastore is the client representation of a Geoserver datastore; the
Workspace pointer is modelled as a value because every constructor in the
source populates it. -/
structure Datastore where
  Name : String
  Description : String
  «Type» : String
  Enabled : Bool
  Workspace : Workspace
  ConnectionParameters : GoStrMap
deriving Repr, DecidableEq

/-- GetDatastoresResponse is a response to getting datastores. -/
structure GetDatastoresResponse where
  Datastores : List Datastore
deriving Repr, DecidableEq

/-- entry is a key-value pair used when configuring datasets on the wire
(JSON keys are at-key and dollar). -/
structure entry where
  Key : String
  Value : String
deriving Repr, DecidableEq

/-- datasetConnectionParameters are the connection parameters for the
dataset on the wire; the slice of pointers is modelled as a list of values. -/
structure datasetConnectionParameters where
  Entry : List entry
deriving Repr, DecidableEq

/-- restDatastore is a Geoserver datastore on the wire; Workspace and
ConnectionParameters are pointers in the source. -/
structure restDatastore where
  Name : String
  Description : String
  «Type» : String
  Enabled : Bool
  Workspace : Option restWorkspace
  ConnectionParameters : Option datasetConnectionParameters
deriving Repr, DecidableEq

/-- createDatastoreRestRequest is the wire request to create a datastore;
its pointer field is always set by its only constructor. -/
structure createDatastoreRestRequest where
  Datastore : restDatastore
deriving Repr, DecidableEq

/-- mapToEntries converts a Go map into a list of wire entries; iterating
over the nil map performs no iterations. -/
def mapToEntries (entries : GoStrMap) : List entry :=
  (entries.getD []).map (fun p => { Key := p.1, Value := p.2 })

/-- connectionDetailsToMap converts wire connection parameters back to a Go
map.  The source declares the named result (a nil map) and assigns each
entry into it without initialising it, so the first entry triggers the Go
runtime panic for assignment into a nil map; a nil pointer argument would
panic on the field dereference. -/
def connectionDetailsToMap : Option datasetConnectionParameters → Except GoPanic GoStrMap
  | none => Except.error GoPanic.nilDeref
  | some cd => cd.Entry.foldlM (fun m e => goMapSet m e.Key e.Value) (none : GoStrMap)

/-- newCreateDatasouceRestRequest converts the generic CreateDatastoreRequest
into the REST specific createDatastoreRestRequest (the Enabled flag is the
literal true in the source). -/
def newCreateDatasouceRestRequest (request : CreateDatastoreRequest) : createDatastoreRestRequest :=
  { Datastore :=
    { Name := request.Name
      Description := request.Description
      «Type» := request.«Type»
      Enabled := true
      Workspace := some { Name := request.Workspace, Href := "" }
      ConnectionParameters := some { Entry := mapToEntries request.ConnectionDetails } } }

/-- restDatastoreToDatastore converts a wire datastore to a domain
Datastore, going through connectionDetailsToMap (and hence able to panic). -/
def restDatastoreToDatastore (rd : restDatastore) : Except GoPanic Datastore :=
  (connectionDetailsToMap rd.ConnectionParameters).map (fun cp =>
    { Name := rd.Name
      Description := rd.Description
      «Type» := rd.«Type»
      Enabled := rd.Enabled
      Workspace := restWorkspaceToWorkspace rd.Workspace
      ConnectionParameters := cp })

/-- Modelled from the spec: the wire type of the datastore list response is
not under src (only its use in the client is); per the spec JSON body-shape
rule it wraps a collection of wire datastores, with the collection possibly
absent. -/
structure getDatastoresRestResponse where
  Datastores : Option (List restDatastore)
deriving Repr, DecidableEq

/-- Modelled from the spec: newEmptyGetDatastoresRestResponse is not under
src (only its call site is); analogous to newEmptyGetWorkspacesRestResponse
it initialises the unmarshal target with an empty collection. -/
def newEmptyGetDatastoresRestResponse : getDatastoresRestResponse :=
  { Datastores := some [] }

/-- Modelled from the spec: newEmptyGetDatastoresResponse is not under src
(only its call site is); analogous to newEmptyGetWorkspacesResponse it is
the empty domain datastore list. -/
def newEmptyGetDatastoresResponse : GetDatastoresResponse :=
  { Datastores := [] }

/-- Modelled from the spec: getDatastoresRestResponseToGetDatatstoresResponse
is not under src (only its call site is); per the strict mapping required by
the spec it converts each wire datastore through restDatastoreToDatastore,
which is in src and may panic. -/
def getDatastoresRestResponseToGetDatatstoresResponse (response : getDatastoresRestResponse) :
    Except GoPanic GetDatastoresResponse :=
  match response.Datastores with
  | none => Except.ok { Datastores := [] }
  | some l => (l.mapM restDatastoreToDatastore).map (fun ds => { Datastores := ds })

/-!  Domain and wire types for feature types (src/geoserver/feature_type.go). -/

/-- BoundingBox represents a geospatial bounding box; the float64
coordinates are only ever copied, never computed with, and are modelled
as Int. -/
structure BoundingBox where
  MinX : Int
  MaxX : Int
  MinY : Int
  MaxY : Int
  CRS : String
deriving Repr, DecidableEq

/-- CreateFeatureTypeRequest is the information required in order to create
a feature type; the two bounding boxes are pointers in the source. -/
structure CreateFeatureTypeRequest where
  Name : String
  NativeName : String
  Title : String
  Abstract : String
  NativeCRS : String
  SRS : String
  NativeBoundingBox : Option BoundingBox
  LatLongBoundingBox : Option BoundingBox
  DataStore : String
  Workspace : String
deriving Repr, DecidableEq

/-- FeatureType represents a Geoserver feature type. -/
structure FeatureType where
  Name : String
  Href : String
deriving Repr, DecidableEq

/-- GetFeatureTypesResponse represents a response for the get feature types
request. -/
structure GetFeatureTypesResponse where
  FeatureTypes : List FeatureType
deriving Repr, DecidableEq

/-- newEmptyGetFeatureTypesResponse is the empty domain feature type list. -/
def newEmptyGetFeatureTypesResponse : GetFeatureTypesResponse :=
  { FeatureTypes := [] }

/-- restNamespace represents a feature type namespace on the wire. -/
structure restNamespace where
  Name : String
deriving Repr, DecidableEq

/-- restStore represents a Geoserver datastore reference on the wire. -/
structure restStore where
  Class : String
  Name : String
deriving Repr, DecidableEq

/-- restAttribute is a Geoserver attribute on the wire. -/
structure restAttribute where
  Name : String
  MinOccurs : Int
  MaxOccurs : Int
  Nillable : Bool
  Binding : String
deriving Repr, DecidableEq

/-- restAttributes is the wire collection of attributes. -/
structure restAttributes where
  Attribute : List restAttribute
deriving Repr, DecidableEq

/-- restFeatureType is a Geoserver feature type on the wire; pointer fields
are Options.  Fields omitted by a Go composite literal take their zero
value (empty string, nil pointer, false). -/
structure restFeatureType where
  Name : String
  Href : String
  NativeName : String
  Namespace : Option restNamespace
  Title : String
  Abstract : String
  SRS : String
  NativeBoundingBox : Option BoundingBox
  LatLongBoundingBox : Option BoundingBox
  ProjectionPolicy : String
  Attributes : Option restAttributes
  Enabled : Bool
  Store : Option restStore
deriving Repr, DecidableEq

/-- createFeatureTypeRestRequest represents the JSON required by Geoserver
when creating a feature type. -/
structure createFeatureTypeRestRequest where
  FeatureType : restFeatureType
deriving Repr, DecidableEq

/-- newStore creates a wire restStore with default values populated; the
name is the workspace and store name joined by a colon. -/
def newStore (workspace : String) (name : String) : restStore :=
  { Class := "dataStore", Name := workspace ++ ":" ++ name }

/-- newCreateFeatureTypeRestRequest builds the wire create request.  It
mirrors the source exactly: the wire Abstract field is never assigned (it
stays at the Go zero value, the empty string), the wire LatLongBoundingBox
field is assigned from request.NativeBoundingBox, Enabled and the
projection policy are fixed, and the attribute list is the fixed single
Geometry attribute. -/
def newCreateFeatureTypeRestRequest (request : CreateFeatureTypeRequest) : createFeatureTypeRestRequest :=
  { FeatureType :=
    { Name := request.Name
      Href := ""
      NativeName := request.NativeName
      Namespace := some { Name := request.Workspace }
      Title := request.Title
      Abstract := ""
      SRS := request.SRS
      NativeBoundingBox := request.NativeBoundingBox
      LatLongBoundingBox := request.NativeBoundingBox
      ProjectionPolicy := "REPROJECT_TO_DECLARED"
      Attributes := some { Attribute := [
        { Name := "Geometry"
          MinOccurs := 0
          MaxOccurs := 1
          Nillable := true
          Binding := "com.vividsolutions.jts.geom.Point" }] }
      Enabled := true
      Store := some (newStore request.Workspace request.DataStore) } }

/-- restFeatureTypes is the wire collection of feature types. -/
structure restFeatureTypes where
  FeatureTypes : List restFeatureType
deriving Repr, DecidableEq

/-- getFeatureTypeRestResponse is the wire shape of the feature type list
response; the collection field is a value, not a pointer, in the source. -/
structure getFeatureTypeRestResponse where
  FeatureTypes : restFeatureTypes
deriving Repr, DecidableEq

/-- newBlankGetFeatureTypeRestResponse initialises the unmarshal target with
zero values. -/
def newBlankGetFeatureTypeRestResponse : getFeatureTypeRestResponse :=
  { FeatureTypes := { FeatureTypes := [] } }

/-- restFeatureTypeToFeatureType converts a wire feature type to the domain
FeatureType. -/
def restFeatureTypeToFeatureType (featureType : restFeatureType) : FeatureType :=
  { Name := featureType.Name, Href := featureType.Href }

/-- getFeatureTypeRestResponseToGetFeatureTypeResponse converts the wire
list response to the domain response. -/
def getFeatureTypeRestResponseToGetFeatureTypeResponse (response : getFeatureTypeRestResponse) :
    GetFeatureTypesResponse :=
  { FeatureTypes := response.FeatureTypes.FeatureTypes.map restFeatureTypeToFeatureType }

/-!  The RestGeoserverClient operations (src/unnamed/part_002).

Every operation builds an authenticated JSON request (which can fail), runs
it over the injected transport (which can fail), and then branches on the
HTTP status code.  One exchange with the server is modelled as an Exchange
value; a Go error value is modelled as Option String (none is the nil
error).  Logging is side-effect only and is not modelled. -/

/-- httpCodeOK is the HTTP code used when all is well. -/
def httpCodeOK : Nat := 200

/-- codeCreated is the HTTP code used when an entity has been created. -/
def codeCreated : Nat := 201

/-- The outcome of one HTTP exchange as seen by a client method: request
construction failed, httpClient.Do failed (transport failure), or a
response arrived with a status code and a body. -/
inductive Exchange (β : Type) where
  | newRequestError (msg : String)
  | doError (msg : String)
  | response (status : Nat) (body : β)
deriving Repr, DecidableEq

/-- The outcome of reading and JSON-decoding a response body: ReadAll
failed, json.Unmarshal failed, or the decoded wire value. -/
inductive BodyRead (α : Type) where
  | readError (msg : String)
  | unmarshalError (msg : String)
  | parsed (a : α)
deriving Repr, DecidableEq

/-- A single-quote character for building the error strings produced with
the percent-s format of the source. -/
def sq : String := String.singleton (Char.ofNat 39)

/-- IsHealthOk: true when the status endpoint answers 200; transport
failures are returned as errors, any other status is merely logged. -/
def IsHealthOk (x : Exchange Unit) : Bool × Option String :=
  match x with
  | Exchange.newRequestError e => (false, some e)
  | Exchange.doError e => (false, some e)
  | Exchange.response status _ => (httpCodeOK == status, none)

/-- WorkspaceExists: true exactly on a 200 response; a non-200 status is
logged and yields false with the nil error; transport failures are
returned as errors. -/
def WorkspaceExists (workspace : String) (x : Exchange Unit) : Bool × Option String :=
  match x with
  | Exchange.newRequestError e => (false, some e)
  | Exchange.doError e => (false, some e)
  | Exchange.response status _ => (200 == status, none)

/-- DatastoreExists: same shape as WorkspaceExists. -/
def DatastoreExists (workspace : String) (datastore : String) (x : Exchange Unit) :
    Bool × Option String :=
  match x with
  | Exchange.newRequestError e => (false, some e)
  | Exchange.doError e => (false, some e)
  | Exchange.response status _ => (200 == status, none)

/-- FeatureTypeExists: same shape as WorkspaceExists. -/
def FeatureTypeExists (workspace : String) (datastore : String) (featureType : String)
    (x : Exchange Unit) : Bool × Option String :=
  match x with
  | Exchange.newRequestError e => (false, some e)
  | Exchange.doError e => (false, some e)
  | Exchange.response status _ => (200 == status, none)

/-- GetWorkspaces: on 200 the body is read (a read error is returned), then
decoded; a decode failure is degraded to the empty response with the nil
error; on any other status the source returns the nil response together
with a query error. -/
def GetWorkspaces (x : Exchange (BodyRead getWorkspacesRestResponse)) :
    Except GoPanic (Option GetWorkspacesResponse × Option String) :=
  match x with
  | Exchange.newRequestError e => Except.ok (none, some e)
  | Exchange.doError e => Except.ok (none, some e)
  | Exchange.response status body =>
    if 200 == status then
      match body with
      | BodyRead.readError e => Except.ok (none, some e)
      | BodyRead.unmarshalError _ => Except.ok (some newEmptyGetWorkspacesResponse, none)
      | BodyRead.parsed r =>
        (getWorkspacesRestResponseToGetWorkspacesResponse r).map (fun resp => (some resp, none))
    else
      Except.ok (none, some "unable to query Geoserver for workspaces")

/-- GetDatastores: the 200 branch mirrors GetWorkspaces (decode failure
degraded to the empty response), but the non-200 branch falls through the
end of the function, returning the nil response and the nil error. -/
def GetDatastores (workspace : String) (x : Exchange (BodyRead getDatastoresRestResponse)) :
    Except GoPanic (Option GetDatastoresResponse × Option String) :=
  match x with
  | Exchange.newRequestError e => Except.ok (none, some e)
  | Exchange.doError e => Except.ok (none, some e)
  | Exchange.response status body =>
    if 200 == status then
      match body with
      | BodyRead.readError e => Except.ok (none, some e)
      | BodyRead.unmarshalError _ => Except.ok (some newEmptyGetDatastoresResponse, none)
      | BodyRead.parsed r =>
        (getDatastoresRestResponseToGetDatatstoresResponse r).map (fun resp => (some resp, none))
    else
      Except.ok (none, none)

/-- GetFeatureTypes: same shape as GetDatastores, including the non-200
fall-through that returns the nil result and the nil error. -/
def GetFeatureTypes (workspace : String) (datastore : String)
    (x : Exchange (BodyRead getFeatureTypeRestResponse)) :
    Option GetFeatureTypesResponse × Option String :=
  match x with
  | Exchange.newRequestError e => (none, some e)
  | Exchange.doError e => (none, some e)
  | Exchange.response status body =>
    if 200 == status then
      match body with
      | BodyRead.readError e => (none, some e)
      | BodyRead.unmarshalError _ => (some newEmptyGetFeatureTypesResponse, none)
      | BodyRead.parsed r => (some (getFeatureTypeRestResponseToGetFeatureTypeResponse r), none)
    else
      (none, none)

/-- CreateWorkspace: json.Marshal of the wire request may fail first, then
the exchange runs; success is exactly codeCreated (201), anything else
yields an error naming the workspace. -/
def CreateWorkspace (request : CreateWorkspaceRequest) (marshalErr : Option String)
    (x : Exchange Unit) : Option String :=
  match marshalErr with
  | some e => some e
  | none =>
    match x with
    | Exchange.newRequestError e => some e
    | Exchange.doError e => some e
    | Exchange.response status _ =>
      if codeCreated == status then none
      else some ("unable to create workspace " ++ sq ++ request.Workspace ++ sq)

/-- DeleteWorkspace: success is exactly 200, anything else yields an error
naming the workspace. -/
def DeleteWorkspace (workspace : String) (x : Exchange Unit) : Option String :=
  match x with
  | Exchange.newRequestError e => some e
  | Exchange.doError e => some e
  | Exchange.response status _ =>
    if 200 == status then none
    else some ("unable to delete workspace " ++ sq ++ workspace ++ sq)

/-- CreateDatastore: success is exactly 201, anything else yields an error
naming the datastore by request.Name. -/
def CreateDatastore (request : CreateDatastoreRequest) (marshalErr : Option String)
    (x : Exchange Unit) : Option String :=
  match marshalErr with
  | some e => some e
  | none =>
    match x with
    | Exchange.newRequestError e => some e
    | Exchange.doError e => some e
    | Exchange.response status _ =>
      if 201 == status then none
      else some ("unable to create datastore " ++ sq ++ request.Name ++ sq)

/-- DeleteDatastore: success is exactly 200; on any other status the source
formats the message with the workspace argument, not the datastore
argument, exactly as embedded here. -/
def DeleteDatastore (workspace : String) (datastore : String) (x : Exchange Unit) :
    Option String :=
  match x with
  | Exchange.newRequestError e => some e
  | Exchange.doError e => some e
  | Exchange.response status _ =>
    if 200 == status then none
    else some ("unable to delete datastore " ++ sq ++ workspace ++ sq)

/-- CreateFeatureType: success is exactly 201, anything else yields an
error naming the feature type by request.Name. -/
def CreateFeatureType (request : CreateFeatureTypeRequest) (marshalErr : Option String)
    (x : Exchange Unit) : Option String :=
  match marshalErr with
  | some e => some e
  | none =>
    match x with
    | Exchange.newRequestError e => some e
    | Exchange.doError e => some e
    | Exchange.response status _ =>
      if 201 == status then none
      else some ("unable to create datalayer " ++ sq ++ request.Name ++ sq)

/-- DeleteFeatureType: both 200 and 404 are success (idempotent delete);
any other status yields an error naming the feature type, datastore and
workspace. -/
def DeleteFeatureType (workspace : String) (datastore : String) (featureType : String)
    (x : Exchange Unit) : Option String :=
  match x with
  | Exchange.newRequestError e => some e
  | Exchange.doError e => some e
  | Exchange.response status _ =>
    if 200 == status || 404 == status then none
    else some ("unable to delete feature type " ++ sq ++ featureType ++ sq
      ++ " in datastore " ++ sq ++ datastore ++ sq
      ++ " and workspace " ++ sq ++ workspace ++ sq)

/-!  Concrete data used by the theorems below. -/

/-- A wire datastore carrying a single connection-parameter entry. -/
def sampleRestDatastore : restDatastore :=
  { Name := "ds1"
    Description := "a datastore"
    «Type» := "postgres"
    Enabled := true
    Workspace := some { Name := "ws1", Href := "" }
    ConnectionParameters := some { Entry := [{ Key := "host", Value := "localhost" }] } }

/-- A create-datastore request whose connection details hold one pair. -/
def sampleCreateDatastoreRequest : CreateDatastoreRequest :=
  { Name := "ds1"
    Description := "a datastore"
    «Type» := "postgres"
    Workspace := "ws1"
    ConnectionDetails := some [("host", "localhost")] }

/-- A create-feature-type request whose Abstract is non-empty and whose
LatLongBoundingBox differs from its NativeBoundingBox. -/
def sampleCreateFeatureTypeRequest : CreateFeatureTypeRequest :=
  { Name := "layer1"
    NativeName := "layer1"
    Title := "Layer One"
    Abstract := "the layer abstract"
    NativeCRS := "EPSG:4326"
    SRS := "EPSG:4326"
    NativeBoundingBox := some { MinX := -180, MaxX := 180, MinY := -90, MaxY := 90, CRS := "EPSG:4326" }
    LatLongBoundingBox := some { MinX := 0, MaxX := 1, MinY := 0, MaxY := 1, CRS := "EPSG:3857" }
    DataStore := "ds1"
    Workspace := "ws1" }

/-!  Theorems settling the claims. -/

/-- Claim C1: the claim says no client operation ever panics, every failure
being returned as a typed error value or a boolean.  The code refutes it:
connectionDetailsToMap assigns into an uninitialised (nil) Go map, so
GetDatastores panics on any 200 response whose body holds a datastore with
at least one connection-parameter entry, instead of returning a value. -/
theorem getDatastores_panics_on_connection_params :
    GetDatastores "ws1" (Exchange.response 200 (BodyRead.parsed
      { Datastores := some [sampleRestDatastore] }))
      = Except.error GoPanic.nilMapAssign := by
  rfl

/-- Claim C2: the claim says the domain to wire to domain round trip
preserves Name and the ConnectionParameters mapping.  The code refutes it:
converting the wire form of a create-datastore request back to the domain
goes through connectionDetailsToMap, which panics on the very first
connection-parameter entry, so no domain value is produced at all for any
non-empty parameter map. -/
theorem datastore_roundtrip_panics :
    restDatastoreToDatastore (newCreateDatasouceRestRequest sampleCreateDatastoreRequest).Datastore
      = Except.error GoPanic.nilMapAssign := by
  rfl

/-- Claim C3: the claim says GetDatastores and GetFeatureTypes return an
error on every non-200 status, as GetWorkspaces does.  The code refutes it:
on a non-200 status both fall through and return the nil response together
with the nil error, while GetWorkspaces does return an error. -/
theorem getDatastores_getFeatureTypes_swallow_non200 :
    GetDatastores "ws1" (Exchange.response 404 (BodyRead.readError "irrelevant"))
      = Except.ok (none, none)
    ∧ GetFeatureTypes "ws1" "ds1" (Exchange.response 404 (BodyRead.readError "irrelevant"))
      = (none, none)
    ∧ GetWorkspaces (Exchange.response 404 (BodyRead.readError "irrelevant"))
      = Except.ok (none, some "unable to query Geoserver for workspaces") := by
  exact ⟨rfl, rfl, rfl⟩

/-- Claim C4: a 200 response whose body fails to decode as the wire
workspaces type makes GetWorkspaces return the empty workspace list and the
nil error, for every unmarshal error message; the failure is never
surfaced. -/
theorem getWorkspaces_degrades_unmarshal_failure (e : String) :
    GetWorkspaces (Exchange.response 200 (BodyRead.unmarshalError e))
      = Except.ok (some { Workspaces := [] }, none) := by
  rfl

/-- Claim C5: for the three existence checks, a response makes the boolean
exactly (status equals 200) with the nil error (so every non-200 status
yields false without an error), and a transport failure is returned as a
non-nil error. -/
theorem exists_ops_status_behaviour (workspace datastore featureType : String)
    (status : Nat) (e : String) :
    WorkspaceExists workspace (Exchange.response status ()) = ((200 == status), none)
    ∧ DatastoreExists workspace datastore (Exchange.response status ()) = ((200 == status), none)
    ∧ FeatureTypeExists workspace datastore featureType (Exchange.response status ())
        = ((200 == status), none)
    ∧ ((200 == status) = true ↔ status = 200)
    ∧ WorkspaceExists workspace (Exchange.doError e) = (false, some e)
    ∧ DatastoreExists workspace datastore (Exchange.doError e) = (false, some e)
    ∧ FeatureTypeExists workspace datastore featureType (Exchange.doError e) = (false, some e) := by
  refine ⟨rfl, rfl, rfl, ?_, rfl, rfl, rfl⟩
  simp only [beq_iff_eq]
  exact eq_comm

/-- Claim C6: DeleteFeatureType succeeds (nil error) exactly on status 200
or 404, while DeleteWorkspace succeeds exactly on status 200, so a 404 on
workspace deletion is an error. -/
theorem delete_status_policy (workspace datastore featureType : String) (status : Nat) :
    (DeleteFeatureType workspace datastore featureType (Exchange.response status ()) = none
      ↔ (status = 200 ∨ status = 404))
    ∧ (DeleteWorkspace workspace (Exchange.response status ()) = none ↔ status = 200) := by
  constructor
  · show (if 200 == status || 404 == status then none else some _) = none ↔ _
    split
    · rename_i h
      simp only [Bool.or_eq_true, beq_iff_eq] at h
      constructor
      · intro _
        omega
      · intro _
        rfl
    · rename_i h
      simp only [Bool.or_eq_true, beq_iff_eq, not_or] at h
      constructor
      · intro hc
        exact absurd hc (Option.some_ne_none _)
      · intro hc
        exfalso
        omega
  · show (if 200 == status then none else some _) = none ↔ _
    split
    · rename_i h
      simp only [beq_iff_eq] at h
      constructor
      · intro _
        omega
      · intro _
        rfl
    · rename_i h
      simp only [beq_iff_eq] at h
      constructor
      · intro hc
        exact absurd hc (Option.some_ne_none _)
      · intro hc
        exfalso
        omega

/-- Claim C7: the claim says the wire create request carries the abstract
of the request into the wire abstract field and the LatLongBoundingBox of
the request into the wire latLongBoundingBox field.  The code refutes it:
on a request with a non-empty abstract and distinct bounding boxes, the
wire abstract is the empty string and the wire latLongBoundingBox is the
NativeBoundingBox of the request, not its LatLongBoundingBox. -/
theorem createFeatureType_wire_mapping_divergence :
    (newCreateFeatureTypeRestRequest sampleCreateFeatureTypeRequest).FeatureType.Abstract = ""
    ∧ sampleCreateFeatureTypeRequest.Abstract = "the layer abstract"
    ∧ (newCreateFeatureTypeRestRequest sampleCreateFeatureTypeRequest).FeatureType.LatLongBoundingBox
        = sampleCreateFeatureTypeRequest.NativeBoundingBox
    ∧ sampleCreateFeatureTypeRequest.NativeBoundingBox ≠ sampleCreateFeatureTypeRequest.LatLongBoundingBox := by
  refine ⟨rfl, rfl, rfl, ?_⟩
  decide

/-- Claim C8: the claim says DeleteDatastore, on an unexpected status,
returns an error naming the datastore argument.  The code refutes it: the
message interpolates the workspace argument, so deleting datastore ds1 in
workspace ws1 against a 500 response names ws1, and the datastore name
appears nowhere in the error. -/
theorem deleteDatastore_error_names_workspace :
    DeleteDatastore "ws1" "ds1" (Exchange.response 500 ())
      = some ("unable to delete datastore " ++ sq ++ "ws1" ++ sq) := by
  rfl

/-- Claim C9: for every create-feature-type request, the wire request has
enabled true, the fixed projection policy, and exactly one attribute, the
Geometry attribute with minOccurs 0, maxOccurs 1, nillable, bound to the
Point class. -/
theorem createFeatureType_fixed_wire_fields (request : CreateFeatureTypeRequest) :
    (newCreateFeatureTypeRestRequest request).FeatureType.Enabled = true
    ∧ (newCreateFeatureTypeRestRequest request).FeatureType.ProjectionPolicy
        = "REPROJECT_TO_DECLARED"
    ∧ (newCreateFeatureTypeRestRequest request).FeatureType.Attributes
        = some { Attribute := [
            { Name := "Geometry"
              MinOccurs := 0
              MaxOccurs := 1
              Nillable := true
              Binding := "com.vividsolutions.jts.geom.Point" }] } := by
  exact ⟨rfl, rfl, rfl⟩

/-- Claim C10: for every create-datastore request, the wire request built
by newCreateDatasouceRestRequest has the enabled flag true. -/
theorem createDatastore_always_enabled (request : CreateDatastoreRequest) :
    (newCreateDatasouceRestRequest request).Datastore.Enabled = true := by
  rfl

end Geoserver
